import Mathlib

/-!
Verification development for the dabih-attachments service
(`src/index.ts`): a scan-first file conversion pipeline with a type
classifier, a ClamAV scan client, a converter dispatcher, a dual-mode
upload sink (remote presigned PUT vs. local ephemeral TTL store), and a
retrieval endpoint for the local store.

The embedding is shallow and executable: the TypeScript functions are
translated into Lean functions; the Express request handlers become
functions from an explicit environment (outcomes of the external engines:
ClamAV, sharp, LibreOffice, the remote HTTP PUT) and explicit state (the
in-memory `localFiles` map, the pending eviction timers, and an on-disk
file map) to a response value, the successor state, and a trace of
observable events.  Local plain-disk writes (`writeFileSync`,
`createWriteStream` to `/tmp`) are modelled as succeeding; the external
engines and the remote PUT are fallible and their outcomes are inputs.
String routines that the kernel must evaluate are implemented
structurally over `List Char` so that `decide`/`rfl` compute.
-/

namespace DabihAttachments

/-! ## Character/string utilities (kernel-reducible models of the JS string ops) -/

/-- Model of JS `s.split(sep)` for a single-character separator, structurally
recursive so that it reduces in the kernel.  `splitChar sep ""` = `[""]`,
matching JS `"".split(sep)`. -/
def splitChar (sep : Char) : List Char → List (List Char)
  | [] => [[]]
  | c :: rest =>
    let r := splitChar sep rest
    if c = sep then [] :: r
    else
      match r with
      | [] => [[c]]
      | h :: t => (c :: h) :: t

/-- Model of JS `url.split('/').pop()`: the final `/`-separated segment. -/
def lastSegment (url : String) : String :=
  String.mk ((splitChar '/' url.data).getLastD [])

/-- Structural `Bool`-valued prefix test on character lists. -/
def charsStart : List Char → List Char → Bool
  | _, [] => true
  | [], _ :: _ => false
  | c :: cs, p :: ps => c = p && charsStart cs ps

/-- Model of JS `s.startsWith(pre)`. -/
def strStartsWith (s pre : String) : Bool :=
  charsStart s.data pre.data

/-- ASCII lower-casing of one character (model of the effect of JS
`toLowerCase` on the ASCII range, which is all the category tables use). -/
def lowerChar (c : Char) : Char :=
  if 'A' ≤ c ∧ c ≤ 'Z' then Char.ofNat (c.toNat + 32) else c

/-- Model of JS `s.toLowerCase()` restricted to its ASCII action. -/
def lowerString (s : String) : String :=
  String.mk (s.data.map lowerChar)

/-- Model of JS `s.slice(1)`. -/
def strDrop1 (s : String) : String :=
  String.mk (s.data.drop 1)

/-! ## Node `path.extname` (posix), transliterated from Node's scanning loop.

`getFileCategory` in the source calls `path.extname(filename)`; Node scans the
string right to left tracking the last dot (`startDot`), the basename start
(`startPart`), the end of the trimmed component (`endIdx`) and `preDotState`,
and returns `""` when there is no dot in the basename, when the basename's
first character is its only dot (dotfiles), or when the component is `".."`. -/

structure ExtScan where
  startDot : Int
  startPart : Nat
  endIdx : Int
  matchedSlash : Bool
  preDotState : Int
deriving DecidableEq

/-- The right-to-left scanning loop of Node posix `path.extname`; `i` is the
number of indices still to visit (the loop body handles index `i - 1`). -/
def extnameGo (cs : List Char) : Nat → ExtScan → ExtScan
  | 0, st => st
  | i + 1, st =>
    let c := cs.getD i ' '
    if c = '/' then
      if st.matchedSlash then extnameGo cs i st
      else { st with startPart := i + 1 }
    else
      let st1 :=
        if st.endIdx = -1 then { st with matchedSlash := false, endIdx := (i : Int) + 1 }
        else st
      let st2 :=
        if c = '.' then
          if st1.startDot = -1 then { st1 with startDot := (i : Int) }
          else if st1.preDotState ≠ 1 then { st1 with preDotState := 1 }
          else st1
        else
          if st1.startDot ≠ -1 then { st1 with preDotState := -1 }
          else st1
      extnameGo cs i st2

/-- Model of Node posix `path.extname`. -/
def extname (s : String) : String :=
  let cs := s.data
  let st := extnameGo cs cs.length ⟨-1, 0, -1, true, 0⟩
  if st.startDot = -1 ∨ st.endIdx = -1 ∨ st.preDotState = 0 ∨
      (st.preDotState = 1 ∧ st.startDot = st.endIdx - 1 ∧
        st.startDot = (st.startPart : Int) + 1) then
    ""
  else
    String.mk ((cs.drop st.startDot.toNat).take (st.endIdx - st.startDot).toNat)

example : extname "index.html" = ".html" := by decide
example : extname "index.coffee.md" = ".md" := by decide
example : extname "index." = "." := by decide
example : extname "index" = "" := by decide
example : extname ".index" = "" := by decide
example : extname ".index.md" = ".md" := by decide
example : extname ".exe" = "" := by decide
example : extname "blocked.exe" = ".exe" := by decide
example : extname ".." = "" := by decide
example : extname "..exe" = ".exe" := by decide
example : extname "a/b.txt" = ".txt" := by decide
example : extname "a.b/c" = "" := by decide

/-! ## File type categorization (`FILE_TYPES`, `getFileCategory`) -/

inductive FileCategory where
  | image
  | document
  | video
  | audio
  | archive
  | blocked
  | unsupported
deriving DecidableEq

/-- `FILE_TYPES.image` from the source. -/
def imageTypes : List String :=
  ["jpg", "jpeg", "png", "webp", "gif", "tiff", "tif", "avif", "heic", "heif", "svg"]

/-- `FILE_TYPES.document` from the source. -/
def documentTypes : List String :=
  ["doc", "docx", "odt", "rtf", "txt", "xls", "xlsx", "ods", "csv", "ppt", "pptx", "odp"]

/-- `FILE_TYPES.video` from the source. -/
def videoTypes : List String :=
  ["mp4", "avi", "mov", "mkv", "webm", "flv", "wmv", "m4v"]

/-- `FILE_TYPES.audio` from the source. -/
def audioTypes : List String :=
  ["mp3", "wav", "ogg", "flac", "m4a", "aac", "wma"]

/-- `FILE_TYPES.archive` from the source. -/
def archiveTypes : List String :=
  ["zip", "rar", "7z", "tar", "gz", "bz2"]

/-- `FILE_TYPES.blocked` from the source. -/
def blockedTypes : List String :=
  ["exe", "dll", "bat", "cmd", "com", "scr", "pif", "vbs", "js", "jar",
   "app", "deb", "rpm", "msi", "sh", "bash", "ps1"]

/-- `getFileCategory` from the source:
`const ext = path.extname(filename).slice(1).toLowerCase();` followed by the
category lookups, `blocked` first. -/
def getFileCategory (filename : String) : FileCategory :=
  let ext := lowerString (strDrop1 (extname filename))
  if blockedTypes.contains ext then .blocked
  else if imageTypes.contains ext then .image
  else if documentTypes.contains ext then .document
  else if videoTypes.contains ext then .video
  else if audioTypes.contains ext then .audio
  else if archiveTypes.contains ext then .archive
  else .unsupported

/-- The category an already-extracted, already-lowercased extension is given
by the source's lookup order (`blocked` first, then the other tables,
defaulting to `unsupported`). -/
def categoryOfExt (ext : String) : FileCategory :=
  if blockedTypes.contains ext then .blocked
  else if imageTypes.contains ext then .image
  else if documentTypes.contains ext then .document
  else if videoTypes.contains ext then .video
  else if audioTypes.contains ext then .audio
  else if archiveTypes.contains ext then .archive
  else .unsupported

example : getFileCategory "photo.JPG" = .image := by decide
example : getFileCategory "blocked.exe" = .blocked := by decide
example : getFileCategory "a.zip" = .archive := by decide
example : getFileCategory "test.txt" = .document := by decide
example : getFileCategory "noext" = .unsupported := by decide

/-- Modelled from the spec: the claim's own description of extension
extraction for the Type Classifier — "extracts the extension (text after the
last `.`, lower-cased; no extension ⇒ `unsupported`)".  Declared only to be
compared against the source's `getFileCategory`; `none` when the filename
contains no dot. -/
def extAfterLastDotSpec (filename : String) : Option String :=
  if filename.data.contains '.' then
    some (String.mk ((splitChar '.' filename.data).getLastD []))
  else none

/-- Modelled from the spec: the classifier as the claim words it — text after
the last dot, lower-cased, `blocked` checked first, `unsupported` when there
is no dot or the extension is in no table. -/
def classifySpec (filename : String) : FileCategory :=
  match extAfterLastDotSpec filename with
  | none => .unsupported
  | some e => categoryOfExt (lowerString e)

/-! ## Scan client (`scanFile`)

`scanFile` runs `clamdscan` via `execSync` with a 30s timeout.  The outcome
of the external engine invocation is an input: a clean exit with stdout, the
dedicated detection exit (exit status 1) with stdout and an error message, or
any other failure (timeout, engine unavailable, other exit codes). -/

/-- The possible outcomes of the `execSync('clamdscan ...')` call. -/
inductive EngineExit where
  | exitOk (stdout : String)
  | exitDetect (stdout : String) (message : String)
  | exitOther (message : String)
deriving DecidableEq

/-- `ScanResult` from the source. -/
structure ScanResult where
  clean : Bool
  result : String
deriving DecidableEq

/-- `scanFile` from the source: a clean engine exit gives `{clean: true}`; the
engine's detection exit (`error.status === 1`) gives `{clean: false}` with
`error.stdout || error.message`; anything else re-throws
`Antivirus scan failed: ...` (modelled as `Except.error`). -/
def scanFile : EngineExit → Except String ScanResult
  | .exitOk stdout => .ok { clean := true, result := stdout.trim }
  | .exitDetect stdout message =>
      .ok { clean := false, result := if stdout = "" then message else stdout }
  | .exitOther message => .error ("Antivirus scan failed: " ++ message)

/-! ## Local ephemeral store, disk model and timers -/

/-- Association-list lookup keyed by strings (model of `Map.get`). -/
def alistGet {α : Type} (s : List (String × α)) (k : String) : Option α :=
  match s.find? (fun kv => kv.1 == k) with
  | some kv => some kv.2
  | none => none

/-- Association-list update keyed by strings (model of `Map.set`): the new
binding replaces any previous binding of the key, so at most one binding per
key survives. -/
def alistSet {α : Type} (s : List (String × α)) (k : String) (v : α) :
    List (String × α) :=
  (k, v) :: s.filter (fun kv => !(kv.1 == k))

/-- Association-list removal keyed by strings (model of `Map.delete` /
`unlinkSync`). -/
def alistRemove {α : Type} (s : List (String × α)) (k : String) :
    List (String × α) :=
  s.filter (fun kv => !(kv.1 == k))

/-- `LocalFileInfo` from the source. -/
structure LocalFileInfo where
  path : String
  contentType : String
  expiresAt : Nat
deriving DecidableEq

/-- The process-wide `localFiles` map. -/
abbrev Store := List (String × LocalFileInfo)

/-- The on-disk files, path ↦ content (content as an opaque string). -/
abbrev Disk := List (String × String)

/-- A pending `setTimeout` eviction callback armed by a local upload: it fires
at `fireAt` and its closure captures the map key and the local copy's path. -/
structure TimerEntry where
  fireAt : Nat
  filename : String
  localPath : String
deriving DecidableEq

/-- The mutable process state touched by the local sink: the `localFiles` map
and the pending eviction timers. -/
structure LocalState where
  store : Store
  timers : List TimerEntry
deriving DecidableEq

/-- The body of the `setTimeout` callback armed by a local upload:
`if (localFiles.has(filename)) { unlinkSync(localPath); localFiles.delete(filename) }`,
where a throwing `unlinkSync` (file already gone) skips the `delete`. -/
def fireTimer (st : LocalState) (disk : Disk) (t : TimerEntry) :
    LocalState × Disk :=
  if (alistGet st.store t.filename).isSome then
    match alistGet disk t.localPath with
    | some _ =>
        ({ st with store := alistRemove st.store t.filename },
         alistRemove disk t.localPath)
    | none => (st, disk)
  else (st, disk)

/-! ## Retrieval endpoint (`GET /convert/:type/:filename`) -/

/-- The observable outcome of the retrieval endpoint: 400 for a bad type,
404 for absent/expired, or the served stream's content type and path. -/
inductive GetResult where
  | badType
  | notFound
  | served (contentType : String) (path : String)
deriving DecidableEq

/-- The `GET /convert/:type/:filename` handler from the source: validates
`type ∈ {original, preview}`, looks the filename up in `localFiles`, returns
404 when absent; when `Date.now() > expiresAt` lazily evicts (unlink + delete,
delete skipped if the unlink throws) and returns 404; otherwise serves the
file with the stored content type. -/
def getConvertFile (st : LocalState) (disk : Disk) (now : Nat)
    (ty filename : String) : GetResult × LocalState × Disk :=
  if ty ≠ "original" ∧ ty ≠ "preview" then (.badType, st, disk)
  else
    match alistGet st.store filename with
    | none => (.notFound, st, disk)
    | some info =>
      if info.expiresAt < now then
        match alistGet disk info.path with
        | some _ =>
            (.notFound, { st with store := alistRemove st.store filename },
             alistRemove disk info.path)
        | none => (.notFound, st, disk)
      else (.served info.contentType info.path, st, disk)

/-! ## Upload sinks (`uploadWithPresignedUrl`, `handleFileUpload`) -/

/-- `UploadResult` from the source (`local` renamed `localFlag`, a keyword). -/
structure UploadResult where
  success : Bool
  localFlag : Option Bool
  statusCode : Option Nat
deriving DecidableEq

/-- The outcome of the single HTTP PUT request: a response with some status
code, or a transport error. -/
inductive HttpPutResult where
  | response (statusCode : Nat)
  | netError (message : String)
deriving DecidableEq

/-- Observable events of one pipeline run. -/
inductive Event where
  | scanInvoked (path : String)
  | remotePut (url : String) (contentType : String) (contentLength : Nat)
      (body : String)
  | storeWrite (filename : String)
  | convertInvoked (path : String)
deriving DecidableEq

/-- `uploadWithPresignedUrl` from the source: reads the full file, performs a
single PUT with `Content-Length = fileContent.length` and the supplied content
type, resolves on a 2xx status, and rejects with
`Upload failed with status <code>` on any other status or with the transport
error.  The emitted event list records the PUT actually performed. -/
def uploadWithPresignedUrl (disk : Disk) (put : HttpPutResult)
    (presignedUrl filePath contentType : String) :
    Except String UploadResult × List Event :=
  match alistGet disk filePath with
  | none => (.error "ENOENT: no such file or directory", [])
  | some fileContent =>
    ((match put with
      | .response code =>
          if 200 ≤ code ∧ code < 300 then
            .ok { success := true, localFlag := none, statusCode := some code }
          else .error ("Upload failed with status " ++ toString code)
      | .netError message => .error message),
     [.remotePut presignedUrl contentType fileContent.length fileContent])

/-- `handleFileUpload` from the source: a destination starting with
`/convert/` goes to the local ephemeral sink — the key is the URL's final
segment, the file is copied to `/tmp/convert-test/<key>`, the entry is stored
with `expiresAt = now + 5 minutes` and a one-shot eviction timer is armed
(appended; nothing cancels a previously armed timer for the same key).  Any
other destination is treated as a presigned URL. -/
def handleFileUpload (st : LocalState) (disk : Disk) (now : Nat)
    (put : HttpPutResult) (url filePath contentType : String) :
    Except String UploadResult × LocalState × Disk × List Event :=
  if strStartsWith url "/convert/" then
    let filename := lastSegment url
    let localPath := "/tmp/convert-test/" ++ filename
    match alistGet disk filePath with
    | none => (.error "ENOENT: copyFileSync source missing", st, disk, [])
    | some content =>
      let disk2 := alistSet disk localPath content
      let expiryTime := now + 5 * 60 * 1000
      let st2 : LocalState :=
        { store := alistSet st.store filename
            { path := localPath, contentType := contentType,
              expiresAt := expiryTime },
          timers := st.timers ++
            [{ fireAt := now + 5 * 60 * 1000, filename := filename,
               localPath := localPath }] }
      (.ok { success := true, localFlag := some true, statusCode := none },
       st2, disk2, [.storeWrite filename])
  else
    match uploadWithPresignedUrl disk put url filePath contentType with
    | (r, evs) => (r, st, disk, evs)

/-! ## Converter dispatcher (`generatePlaceholderPDF`, `convertFileToPDF`) -/

/-- Outcome of one delegated rendering attempt (sharp or LibreOffice): the
produced PDF bytes, or a failure. -/
inductive RenderOutcome where
  | rendered (pdf : String)
  | fail (message : String)
deriving DecidableEq

/-- Environment for one `convertFileToPDF` call: the outcomes of the two
delegated renderers and the two random `/tmp/libreoffice/<tempname>.pdf`
destinations (one chosen by `convertFileToPDF`, one by
`generatePlaceholderPDF`). -/
structure ConvertEnv where
  sharp : RenderOutcome
  libre : RenderOutcome
  convertDest : String
  placeholderDest : String
deriving DecidableEq

/-- Abstraction of the bytes of the pdfkit placeholder document, which states
the filename, the detected category and the size. -/
def placeholderContent (fileName : String) (fileSize : Nat) (category : String) :
    String :=
  "%PDF placeholder " ++ fileName ++ " " ++ category ++ " " ++ toString fileSize

/-- The string the source interpolates for each category. -/
def categoryName : FileCategory → String
  | .image => "image"
  | .document => "document"
  | .video => "video"
  | .audio => "audio"
  | .archive => "archive"
  | .blocked => "blocked"
  | .unsupported => "unsupported"

/-- `generatePlaceholderPDF` from the source: writes a generated PDF stating
filename, category and size to its own temp destination and resolves with
that path.  The local `/tmp` stream write is modelled as succeeding. -/
def generatePlaceholderPDF (env : ConvertEnv) (disk : Disk) (fileName : String)
    (fileSize : Nat) (category : String) : String × Disk :=
  (env.placeholderDest,
   alistSet disk env.placeholderDest
     (placeholderContent fileName fileSize category))

/-- `convertFileToPDF` from the source: throws for a `blocked` category;
converts images with sharp and documents with LibreOffice, writing the result
to its temp destination, and falls back to `generatePlaceholderPDF` when the
renderer fails; every other category always gets a placeholder PDF. -/
def convertFileToPDF (env : ConvertEnv) (disk : Disk)
    (sourceFile fileName : String) (fileSize : Nat) :
    Except String (String × Disk) :=
  let category := getFileCategory fileName
  if category = .blocked then
    .error ("File type not allowed: " ++ extname fileName)
  else if category = .image then
    match env.sharp with
    | .rendered pdf => .ok (env.convertDest, alistSet disk env.convertDest pdf)
    | .fail _ =>
        .ok (generatePlaceholderPDF env disk fileName fileSize
          "image (conversion failed)")
  else if category = .document then
    match env.libre with
    | .rendered pdf => .ok (env.convertDest, alistSet disk env.convertDest pdf)
    | .fail _ =>
        .ok (generatePlaceholderPDF env disk fileName fileSize
          "document (conversion failed)")
  else
    .ok (generatePlaceholderPDF env disk fileName fileSize
      (categoryName category))

/-! ## Pipeline orchestrator (`POST /convert`) -/

/-- `req.file` as multer hands it to the handler. -/
structure UploadedFile where
  path : String
  originalname : String
  mimetype : String
  size : Nat
deriving DecidableEq

/-- Environment for one pipeline run: the scan engine outcome, the converter
environment, the outcomes of the (up to) two remote PUTs, and `Date.now()` at
each upload. -/
structure RunEnv where
  scanExit : EngineExit
  convertEnv : ConvertEnv
  putOriginal : HttpPutResult
  putPreview : HttpPutResult
  nowOriginal : Nat
  nowPreview : Nat
deriving DecidableEq

/-- The terminal responses of the `POST /convert` handler, one constructor per
`res.status(...).json(...)` site, carrying the response fields the claims
mention. -/
inductive ConvertResult where
  | noFile
  | missingUrls
  | blockedResp (fileType : FileCategory) (message : String)
  | rejected (details : String)
  | success (fileCategory : FileCategory)
  | errorResp (message : String) (scanResultReport : String)
deriving DecidableEq

/-- The HTTP status each response site sends. -/
def httpStatus : ConvertResult → Nat
  | .noFile => 400
  | .missingUrls => 400
  | .blockedResp _ _ => 400
  | .rejected _ => 403
  | .success _ => 200
  | .errorResp _ _ => 500

/-- The `status` JSON field of each response. -/
def statusField : ConvertResult → String
  | .noFile => "error"
  | .missingUrls => "error"
  | .blockedResp _ _ => "error"
  | .rejected _ => "rejected"
  | .success _ => "success"
  | .errorResp _ _ => "error"

/-- The `scanResult` JSON field of each response, `none` when the response
object carries no such member. -/
def scanResultField : ConvertResult → Option String
  | .noFile => none
  | .missingUrls => none
  | .blockedResp _ _ => none
  | .rejected _ => some "infected"
  | .success _ => some "clean"
  | .errorResp _ report => some report

/-- The catch handler's
`scanResult ? (scanResult.clean ? 'clean' : 'infected') : 'not_scanned'`. -/
def reportScanVar : Option ScanResult → String
  | none => "not_scanned"
  | some sr => if sr.clean then "clean" else "infected"

/-- `tempFiles.forEach(f => { try { unlinkSync(f) } catch {} })`. -/
def unlinkAll (disk : Disk) (paths : List String) : Disk :=
  paths.foldl (fun d p => alistRemove d p) disk

/-- Everything one `POST /convert` run produces: the response, the successor
local-store state, the successor disk, the observable events, and every path
that was pushed onto `tempFiles`. -/
structure RunOutput where
  result : ConvertResult
  state : LocalState
  disk : Disk
  events : List Event
  tempFiles : List String
deriving DecidableEq

/-- The `POST /convert` handler from the source: validate the file and the two
destination URLs (JS falsiness: absent or empty string), classify and refuse
`blocked` before anything else, scan before any upload, reject infected,
upload the original, convert, upload the preview, clean up temp files on
every exit; a thrown error reaches the catch handler, which cleans up and
responds 500 with the scan report derived from the `scanResult` variable. -/
def postConvert (env : RunEnv) (st : LocalState) (disk : Disk)
    (file : Option UploadedFile) (originalUrl previewUrl : Option String) :
    RunOutput :=
  match file with
  | none => ⟨.noFile, st, disk, [], []⟩
  | some f =>
    match originalUrl, previewUrl with
    | some oUrl, some pUrl =>
      if oUrl = "" ∨ pUrl = "" then ⟨.missingUrls, st, disk, [], []⟩
      else
        let tempFiles := [f.path]
        let fileCategory := getFileCategory f.originalname
        if fileCategory = .blocked then
          ⟨.blockedResp fileCategory
             ("File type not allowed: " ++ extname f.originalname),
           st, unlinkAll disk tempFiles, [], tempFiles⟩
        else
          let events := [Event.scanInvoked f.path]
          match scanFile env.scanExit with
          | .error msg =>
              ⟨.errorResp msg (reportScanVar none), st,
               unlinkAll disk tempFiles, events, tempFiles⟩
          | .ok scanRes =>
            if scanRes.clean = false then
              ⟨.rejected scanRes.result, st, unlinkAll disk tempFiles, events,
               tempFiles⟩
            else
              match handleFileUpload st disk env.nowOriginal env.putOriginal
                  oUrl f.path f.mimetype with
              | (.error msg, st2, disk2, ev2) =>
                  ⟨.errorResp msg (reportScanVar (some scanRes)), st2,
                   unlinkAll disk2 tempFiles, events ++ ev2, tempFiles⟩
              | (.ok _, st2, disk2, ev2) =>
                let events := events ++ ev2 ++ [Event.convertInvoked f.path]
                match convertFileToPDF env.convertEnv disk2 f.path
                    f.originalname f.size with
                | .error msg =>
                    ⟨.errorResp msg (reportScanVar (some scanRes)), st2,
                     unlinkAll disk2 tempFiles, events, tempFiles⟩
                | .ok (pdfFile, disk3) =>
                  let tempFiles := tempFiles ++ [pdfFile]
                  match handleFileUpload st2 disk3 env.nowPreview
                      env.putPreview pUrl pdfFile "application/pdf" with
                  | (.error msg, st3, disk4, ev3) =>
                      ⟨.errorResp msg (reportScanVar (some scanRes)), st3,
                       unlinkAll disk4 tempFiles, events ++ ev3, tempFiles⟩
                  | (.ok _, st3, disk4, ev3) =>
                      ⟨.success fileCategory, st3, unlinkAll disk4 tempFiles,
                       events ++ ev3, tempFiles⟩
    | _, _ => ⟨.missingUrls, st, disk, [], []⟩

/-! ## Helper lemmas about the association-list operations -/

theorem alistGet_set_self {α : Type} (s : List (String × α)) (k : String)
    (v : α) : alistGet (alistSet s k v) k = some v := by
  simp [alistGet, alistSet, List.find?]

theorem alistGet_remove_self {α : Type} (s : List (String × α)) (k : String) :
    alistGet (alistRemove s k) k = none := by
  unfold alistGet alistRemove
  have h : (s.filter (fun kv => !(kv.1 == k))).find? (fun kv => kv.1 == k)
      = none := by
    rw [List.find?_eq_none]
    intro x hx
    have := (List.mem_filter.mp hx).2
    simpa using this
  rw [h]

/-- Retrieval with a valid type parameter and an absent key is `notFound`. -/
theorem getConvertFile_absent (st : LocalState) (disk : Disk) (now : Nat)
    (ty k : String) (hty : ty = "original" ∨ ty = "preview")
    (h : alistGet st.store k = none) :
    (getConvertFile st disk now ty k).1 = .notFound := by
  unfold getConvertFile
  have hcond : ¬(ty ≠ "original" ∧ ty ≠ "preview") := by
    rcases hty with h1 | h1 <;> simp [h1]
  rw [if_neg hcond, h]

/-! ## Claim theorems -/

/-- C6, counterexample: the claim describes extension extraction as "the text
after the last `.`"; on the filename `".exe"` that text is `"exe"`, a blocked
extension, so the claim classifies it `blocked` — but the source uses Node
`path.extname`, which treats a leading-dot basename as having no extension,
so `getFileCategory ".exe" = unsupported`.  The code and the claim's wording
disagree at this input. -/
theorem c6_counterexample_leading_dot :
    getFileCategory ".exe" = .unsupported ∧ classifySpec ".exe" = .blocked ∧
    getFileCategory ".exe" ≠ classifySpec ".exe" := by
  decide

/-- C6, amended: `classify` is the pure total function
`categoryOfExt (lowerString (strDrop1 (extname filename)))` — the extension
is extracted by Node `path.extname` semantics (text from the last `.` of the
final path segment, empty for dotfiles such as `".exe"`), lower-cased; the
`blocked` table is consulted first, so any filename whose extracted extension
is blocked classifies as `blocked` and never as another category; a filename
with no extracted extension classifies as `unsupported`. -/
theorem c6_classifier_total_blocked_first (fn : String) :
    getFileCategory fn = categoryOfExt (lowerString (strDrop1 (extname fn))) ∧
    (blockedTypes.contains (lowerString (strDrop1 (extname fn))) = true →
      getFileCategory fn = .blocked) ∧
    (extname fn = "" → getFileCategory fn = .unsupported) := by
  refine ⟨rfl, ?_, ?_⟩
  · intro h
    have h' : lowerString (strDrop1 (extname fn)) ∈ blockedTypes := by
      simpa using h
    unfold getFileCategory
    simp [h']
  · intro h
    unfold getFileCategory
    rw [h]
    decide

/-- C6, witness for the amended theorem at concrete inputs. -/
theorem c6_classifier_total_blocked_first_witness :
    getFileCategory "payload.Js" = .blocked ∧
    getFileCategory "README" = .unsupported :=
  ⟨(c6_classifier_total_blocked_first "payload.Js").2.1 (by decide),
   (c6_classifier_total_blocked_first "README").2.2 (by decide)⟩

/-- C7: `convertFileToPDF` returns a hard error exactly for the `blocked`
category; every other category yields some PDF path: a failed sharp or
LibreOffice rendering falls back to the generated placeholder PDF, and the
video/audio/archive/unsupported categories always produce the placeholder
PDF. -/
theorem c7_convert_error_iff_blocked (env : ConvertEnv) (disk : Disk)
    (src fn : String) (size : Nat) :
    (getFileCategory fn = .blocked →
      convertFileToPDF env disk src fn size =
        .error ("File type not allowed: " ++ extname fn)) ∧
    (getFileCategory fn ≠ .blocked →
      ∃ p d, convertFileToPDF env disk src fn size = .ok (p, d)) ∧
    (∀ m, getFileCategory fn = .image → env.sharp = .fail m →
      convertFileToPDF env disk src fn size =
        .ok (generatePlaceholderPDF env disk fn size
          "image (conversion failed)")) ∧
    (∀ m, getFileCategory fn = .document → env.libre = .fail m →
      convertFileToPDF env disk src fn size =
        .ok (generatePlaceholderPDF env disk fn size
          "document (conversion failed)")) ∧
    ((getFileCategory fn = .video ∨ getFileCategory fn = .audio ∨
        getFileCategory fn = .archive ∨ getFileCategory fn = .unsupported) →
      convertFileToPDF env disk src fn size =
        .ok (generatePlaceholderPDF env disk fn size
          (categoryName (getFileCategory fn)))) := by
  refine ⟨?_, ?_, ?_, ?_, ?_⟩
  · intro h
    unfold convertFileToPDF
    simp [h]
  · intro h
    cases hcat : getFileCategory fn with
    | blocked => exact absurd hcat h
    | image =>
      cases hs : env.sharp with
      | rendered pdf =>
        exact ⟨env.convertDest, alistSet disk env.convertDest pdf,
          by unfold convertFileToPDF; simp [hcat, hs]⟩
      | fail m =>
        exact ⟨env.placeholderDest,
          alistSet disk env.placeholderDest
            (placeholderContent fn size "image (conversion failed)"),
          by unfold convertFileToPDF generatePlaceholderPDF; simp [hcat, hs]⟩
    | document =>
      cases hl : env.libre with
      | rendered pdf =>
        exact ⟨env.convertDest, alistSet disk env.convertDest pdf,
          by unfold convertFileToPDF; simp [hcat, hl]⟩
      | fail m =>
        exact ⟨env.placeholderDest,
          alistSet disk env.placeholderDest
            (placeholderContent fn size "document (conversion failed)"),
          by unfold convertFileToPDF generatePlaceholderPDF; simp [hcat, hl]⟩
    | video =>
      exact ⟨env.placeholderDest,
        alistSet disk env.placeholderDest
          (placeholderContent fn size (categoryName .video)),
        by unfold convertFileToPDF generatePlaceholderPDF; simp [hcat]⟩
    | audio =>
      exact ⟨env.placeholderDest,
        alistSet disk env.placeholderDest
          (placeholderContent fn size (categoryName .audio)),
        by unfold convertFileToPDF generatePlaceholderPDF; simp [hcat]⟩
    | archive =>
      exact ⟨env.placeholderDest,
        alistSet disk env.placeholderDest
          (placeholderContent fn size (categoryName .archive)),
        by unfold convertFileToPDF generatePlaceholderPDF; simp [hcat]⟩
    | unsupported =>
      exact ⟨env.placeholderDest,
        alistSet disk env.placeholderDest
          (placeholderContent fn size (categoryName .unsupported)),
        by unfold convertFileToPDF generatePlaceholderPDF; simp [hcat]⟩
  · intro m hcat hs
    unfold convertFileToPDF
    simp [hcat, hs]
  · intro m hcat hl
    unfold convertFileToPDF
    simp [hcat, hl]
  · intro hcat
    unfold convertFileToPDF
    rcases hcat with h | h | h | h <;> simp [h]

/-- C7, witness: a clean `.zip` gets the placeholder PDF, and an image whose
sharp rendering fails falls back to the placeholder. -/
theorem c7_convert_error_iff_blocked_witness :
    convertFileToPDF ⟨.rendered "p", .rendered "q", "/tmp/libreoffice/a.pdf",
        "/tmp/libreoffice/b.pdf"⟩ [] "/tmp/uploads/u" "a.zip" 7 =
      .ok (generatePlaceholderPDF ⟨.rendered "p", .rendered "q",
        "/tmp/libreoffice/a.pdf", "/tmp/libreoffice/b.pdf"⟩ [] "a.zip" 7
        "archive") ∧
    convertFileToPDF ⟨.fail "boom", .rendered "q", "/tmp/libreoffice/a.pdf",
        "/tmp/libreoffice/b.pdf"⟩ [] "/tmp/uploads/u" "a.png" 7 =
      .ok (generatePlaceholderPDF ⟨.fail "boom", .rendered "q",
        "/tmp/libreoffice/a.pdf", "/tmp/libreoffice/b.pdf"⟩ [] "a.png" 7
        "image (conversion failed)") :=
  ⟨by
    have h := (c7_convert_error_iff_blocked ⟨.rendered "p", .rendered "q",
      "/tmp/libreoffice/a.pdf", "/tmp/libreoffice/b.pdf"⟩ [] "/tmp/uploads/u"
      "a.zip" 7).2.2.2.2 (by decide)
    simpa using h,
   (c7_convert_error_iff_blocked ⟨.fail "boom", .rendered "q",
      "/tmp/libreoffice/a.pdf", "/tmp/libreoffice/b.pdf"⟩ [] "/tmp/uploads/u"
      "a.png" 7).2.2.1 "boom" (by decide) rfl⟩

/-- C1: when the scan reports a detection (`clean = false`), the run responds
403 with `status: rejected` and `scanResult: infected`, its event trace is
exactly the scan invocation — no remote PUT, no local store write, no
conversion — the store state is unchanged, and retrieving any key that was
absent before (in particular the final segments of this request's
`originalUrl`/`previewUrl`) from the local store afterwards yields 404. -/
theorem c1_infected_rejected_nothing_stored (env : RunEnv) (st : LocalState)
    (disk : Disk) (f : UploadedFile) (oUrl pUrl : String) (sr : ScanResult)
    (h1 : oUrl ≠ "") (h2 : pUrl ≠ "")
    (h3 : getFileCategory f.originalname ≠ .blocked)
    (h4 : scanFile env.scanExit = .ok sr) (h5 : sr.clean = false) :
    postConvert env st disk (some f) (some oUrl) (some pUrl) =
      ⟨.rejected sr.result, st, unlinkAll disk [f.path],
       [.scanInvoked f.path], [f.path]⟩ ∧
    httpStatus (.rejected sr.result) = 403 ∧
    statusField (.rejected sr.result) = "rejected" ∧
    scanResultField (.rejected sr.result) = some "infected" ∧
    (∀ (k : String) (now : Nat) (ty : String),
      (ty = "original" ∨ ty = "preview") → alistGet st.store k = none →
      (getConvertFile st (unlinkAll disk [f.path]) now ty k).1 = .notFound) := by
  refine ⟨?_, rfl, rfl, rfl, ?_⟩
  · unfold postConvert
    simp [h1, h2, h3, h4, h5]
  · intro k now ty hty hk
    exact getConvertFile_absent st (unlinkAll disk [f.path]) now ty k hty hk

/-- C1, witness: a run whose scan detects EICAR is rejected with 403 and a
later retrieval of the request's original key yields 404. -/
theorem c1_infected_rejected_nothing_stored_witness :
    postConvert
        ⟨.exitDetect "stream: Eicar-Signature FOUND" "exit 1",
         ⟨.rendered "p", .rendered "q", "/tmp/libreoffice/a.pdf",
          "/tmp/libreoffice/b.pdf"⟩, .response 200, .response 200, 0, 0⟩
        ⟨[], []⟩ [("/tmp/uploads/u1", "X5O")]
        (some ⟨"/tmp/uploads/u1", "virus.txt", "text/plain", 68⟩)
        (some "/convert/original/a.bin") (some "/convert/preview/b.pdf") =
      ⟨.rejected "stream: Eicar-Signature FOUND", ⟨[], []⟩, [],
       [.scanInvoked "/tmp/uploads/u1"], ["/tmp/uploads/u1"]⟩ ∧
    (getConvertFile ⟨[], []⟩ [] 1000 "original" "a.bin").1 = .notFound := by
  have h := c1_infected_rejected_nothing_stored
    ⟨.exitDetect "stream: Eicar-Signature FOUND" "exit 1",
     ⟨.rendered "p", .rendered "q", "/tmp/libreoffice/a.pdf",
      "/tmp/libreoffice/b.pdf"⟩, .response 200, .response 200, 0, 0⟩
    ⟨[], []⟩ [("/tmp/uploads/u1", "X5O")]
    ⟨"/tmp/uploads/u1", "virus.txt", "text/plain", 68⟩
    "/convert/original/a.bin" "/convert/preview/b.pdf"
    ⟨false, "stream: Eicar-Signature FOUND"⟩
    (by decide) (by decide) (by decide) rfl rfl
  exact ⟨h.1, h.2.2.2.2 "a.bin" 1000 "original" (Or.inl rfl) rfl⟩

/-- C2: the scan outcome is tri-state — a clean engine exit yields
`clean = true` with the trimmed engine output, the detection exit (status 1)
yields `clean = false` with the engine-reported detail
(`error.stdout || error.message`), and any other failure is a distinct scan
error; on a scan error the orchestrator responds 500, reports `scanResult`
as `not_scanned` (which is neither `infected` nor `clean`), its trace is only
the scan invocation (no upload, no conversion), and the store is unchanged. -/
theorem c2_scan_tristate_scan_error_fatal :
    (∀ stdout, scanFile (.exitOk stdout) =
      .ok { clean := true, result := stdout.trim }) ∧
    (∀ stdout message, scanFile (.exitDetect stdout message) =
      .ok { clean := false,
            result := if stdout = "" then message else stdout }) ∧
    (∀ message, scanFile (.exitOther message) =
      .error ("Antivirus scan failed: " ++ message)) ∧
    (∀ (env : RunEnv) (st : LocalState) (disk : Disk) (f : UploadedFile)
        (oUrl pUrl msg : String),
      oUrl ≠ "" → pUrl ≠ "" → getFileCategory f.originalname ≠ .blocked →
      env.scanExit = .exitOther msg →
      postConvert env st disk (some f) (some oUrl) (some pUrl) =
        ⟨.errorResp ("Antivirus scan failed: " ++ msg) "not_scanned", st,
         unlinkAll disk [f.path], [.scanInvoked f.path], [f.path]⟩ ∧
      httpStatus (.errorResp ("Antivirus scan failed: " ++ msg)
        "not_scanned") = 500 ∧
      scanResultField (.errorResp ("Antivirus scan failed: " ++ msg)
        "not_scanned") = some "not_scanned" ∧
      ("not_scanned" : String) ≠ "infected" ∧
      ("not_scanned" : String) ≠ "clean") := by
  refine ⟨fun _ => rfl, fun _ _ => rfl, fun _ => rfl, ?_⟩
  intro env st disk f oUrl pUrl msg h1 h2 h3 h4
  refine ⟨?_, rfl, rfl, by decide, by decide⟩
  unfold postConvert
  simp [h1, h2, h3, h4, scanFile, reportScanVar]

/-- C2, witness: a timed-out scan yields a 500 with `scanResult:
not_scanned` and no upload or conversion events. -/
theorem c2_scan_tristate_scan_error_fatal_witness :
    postConvert
        ⟨.exitOther "ETIMEDOUT",
         ⟨.rendered "p", .rendered "q", "/tmp/libreoffice/a.pdf",
          "/tmp/libreoffice/b.pdf"⟩, .response 200, .response 200, 0, 0⟩
        ⟨[], []⟩ [("/tmp/uploads/u2", "data")]
        (some ⟨"/tmp/uploads/u2", "slow.txt", "text/plain", 4⟩)
        (some "/convert/original/a.bin") (some "/convert/preview/b.pdf") =
      ⟨.errorResp ("Antivirus scan failed: " ++ "ETIMEDOUT") "not_scanned",
       ⟨[], []⟩, [], [.scanInvoked "/tmp/uploads/u2"], ["/tmp/uploads/u2"]⟩ :=
  (c2_scan_tristate_scan_error_fatal.2.2.2
    ⟨.exitOther "ETIMEDOUT",
     ⟨.rendered "p", .rendered "q", "/tmp/libreoffice/a.pdf",
      "/tmp/libreoffice/b.pdf"⟩, .response 200, .response 200, 0, 0⟩
    ⟨[], []⟩ [("/tmp/uploads/u2", "data")]
    ⟨"/tmp/uploads/u2", "slow.txt", "text/plain", 4⟩
    "/convert/original/a.bin" "/convert/preview/b.pdf" "ETIMEDOUT"
    (by decide) (by decide) (by decide) rfl).1

/-- C3, counterexample: the claim says the blocked-file response reports
`scanResult: not_scanned`, but the source's blocked branch responds
`{status: 'error', message, fileType}` with no `scanResult` member at all:
on uploading `blocked.exe` the response's scan-result field is `none`, not
`some "not_scanned"`. -/
theorem c3_counterexample_blocked_response_has_no_scan_result :
    (postConvert
        ⟨.exitOk "OK",
         ⟨.rendered "p", .rendered "q", "/tmp/libreoffice/a.pdf",
          "/tmp/libreoffice/b.pdf"⟩, .response 200, .response 200, 0, 0⟩
        ⟨[], []⟩ [("/tmp/uploads/u3", "MZ")]
        (some ⟨"/tmp/uploads/u3", "blocked.exe", "application/x-msdownload",
          2⟩)
        (some "/convert/original/a.bin")
        (some "/convert/preview/b.pdf")).result =
      .blockedResp .blocked ("File type not allowed: " ++ ".exe") ∧
    scanResultField
        (.blockedResp .blocked ("File type not allowed: " ++ ".exe")) =
      none ∧
    scanResultField
        (.blockedResp .blocked ("File type not allowed: " ++ ".exe")) ≠
      some "not_scanned" := by
  refine ⟨?_, rfl, by decide⟩
  decide

/-- C3, amended: a request whose filename classifies as `blocked` is answered
400 before the scan step (the event trace is empty: no scan, no upload, no
conversion), the response reports the blocked category in its `fileType`
field but carries no `scanResult` member, nothing is written to either sink,
and retrieving any previously absent key afterwards yields 404. -/
theorem c3_blocked_rejected_before_scan (env : RunEnv) (st : LocalState)
    (disk : Disk) (f : UploadedFile) (oUrl pUrl : String)
    (h1 : oUrl ≠ "") (h2 : pUrl ≠ "")
    (h3 : getFileCategory f.originalname = .blocked) :
    postConvert env st disk (some f) (some oUrl) (some pUrl) =
      ⟨.blockedResp .blocked
         ("File type not allowed: " ++ extname f.originalname),
       st, unlinkAll disk [f.path], [], [f.path]⟩ ∧
    httpStatus (.blockedResp .blocked
      ("File type not allowed: " ++ extname f.originalname)) = 400 ∧
    statusField (.blockedResp .blocked
      ("File type not allowed: " ++ extname f.originalname)) = "error" ∧
    scanResultField (.blockedResp .blocked
      ("File type not allowed: " ++ extname f.originalname)) = none ∧
    (∀ (k : String) (now : Nat) (ty : String),
      (ty = "original" ∨ ty = "preview") → alistGet st.store k = none →
      (getConvertFile st (unlinkAll disk [f.path]) now ty k).1 = .notFound) := by
  refine ⟨?_, rfl, rfl, rfl, ?_⟩
  · unfold postConvert
    simp [h1, h2, h3]
  · intro k now ty hty hk
    exact getConvertFile_absent st (unlinkAll disk [f.path]) now ty k hty hk

/-- C3, witness: uploading `blocked.exe` yields the 400 `fileType: blocked`
response with empty event trace, and the original key retrieves as 404. -/
theorem c3_blocked_rejected_before_scan_witness :
    postConvert
        ⟨.exitOk "OK",
         ⟨.rendered "p", .rendered "q", "/tmp/libreoffice/a.pdf",
          "/tmp/libreoffice/b.pdf"⟩, .response 200, .response 200, 0, 0⟩
        ⟨[], []⟩ [("/tmp/uploads/u3", "MZ")]
        (some ⟨"/tmp/uploads/u3", "blocked.exe", "application/x-msdownload",
          2⟩)
        (some "/convert/original/a.bin") (some "/convert/preview/b.pdf") =
      ⟨.blockedResp .blocked
         ("File type not allowed: " ++ extname "blocked.exe"),
       ⟨[], []⟩, [], [], ["/tmp/uploads/u3"]⟩ ∧
    (getConvertFile ⟨[], []⟩ [] 1000 "original" "a.bin").1 = .notFound := by
  have h := c3_blocked_rejected_before_scan
    ⟨.exitOk "OK",
     ⟨.rendered "p", .rendered "q", "/tmp/libreoffice/a.pdf",
      "/tmp/libreoffice/b.pdf"⟩, .response 200, .response 200, 0, 0⟩
    ⟨[], []⟩ [("/tmp/uploads/u3", "MZ")]
    ⟨"/tmp/uploads/u3", "blocked.exe", "application/x-msdownload", 2⟩
    "/convert/original/a.bin" "/convert/preview/b.pdf"
    (by decide) (by decide) (by decide)
  exact ⟨h.1, h.2.2.2.2 "a.bin" 1000 "original" (Or.inl rfl) rfl⟩

/-- C5: a request missing either destination descriptor (absent or empty
`originalUrl`/`previewUrl`) is answered 400 with the run's temp-file set
empty, the store state, the disk and the event trace all unchanged — no temp
file is created on this branch. -/
theorem c5_missing_urls_no_temp_files (env : RunEnv) (st : LocalState)
    (disk : Disk) (f : UploadedFile) (oU pU : Option String)
    (h : oU = none ∨ oU = some "" ∨ pU = none ∨ pU = some "") :
    postConvert env st disk (some f) oU pU = ⟨.missingUrls, st, disk, [], []⟩ ∧
    httpStatus .missingUrls = 400 := by
  refine ⟨?_, rfl⟩
  rcases h with h | h | h | h
  · subst h; cases pU <;> simp [postConvert]
  · subst h; cases pU <;> simp [postConvert]
  · subst h; cases oU <;> simp [postConvert]
  · subst h; cases oU <;> simp [postConvert]

/-- C5, witness: a request with no `originalUrl` gets a 400 and creates no
temp files. -/
theorem c5_missing_urls_no_temp_files_witness :
    postConvert
        ⟨.exitOk "OK",
         ⟨.rendered "p", .rendered "q", "/tmp/libreoffice/a.pdf",
          "/tmp/libreoffice/b.pdf"⟩, .response 200, .response 200, 0, 0⟩
        ⟨[], []⟩ [("/tmp/uploads/u4", "data")]
        (some ⟨"/tmp/uploads/u4", "test.txt", "text/plain", 4⟩)
        none (some "/convert/preview/b.pdf") =
      ⟨.missingUrls, ⟨[], []⟩, [("/tmp/uploads/u4", "data")], [], []⟩ :=
  (c5_missing_urls_no_temp_files
    ⟨.exitOk "OK",
     ⟨.rendered "p", .rendered "q", "/tmp/libreoffice/a.pdf",
      "/tmp/libreoffice/b.pdf"⟩, .response 200, .response 200, 0, 0⟩
    ⟨[], []⟩ [("/tmp/uploads/u4", "data")]
    ⟨"/tmp/uploads/u4", "test.txt", "text/plain", 4⟩
    none (some "/convert/preview/b.pdf") (Or.inl rfl)).1

/-- C4: demonstration of the stale-timer race at a concrete input.  Two local
uploads to the key `a.txt`, at t = 0 and t = 1000 ms: the second upload
overwrites the entry (at most one live entry per key) and resets its expiry
to 301000, but the first upload's eviction timer is still pending — nothing
cancels it.  When that timer fires at its scheduled 300000 its callback finds
the key present and deletes it, so the newer entry is evicted before its own
`expiresAt`, and a retrieval at 300500 (within the advertised lifetime)
yields 404. -/
theorem c4_stale_timer_evicts_newer_entry :
    let disk0 : Disk := [("/tmp/uploads/f1", "v1"), ("/tmp/uploads/f2", "v2")]
    let r1 := handleFileUpload ⟨[], []⟩ disk0 0 (.response 200)
      "/convert/original/a.txt" "/tmp/uploads/f1" "text/plain"
    let r2 := handleFileUpload r1.2.1 r1.2.2.1 1000 (.response 200)
      "/convert/original/a.txt" "/tmp/uploads/f2" "text/plain"
    let fired := fireTimer r2.2.1 r2.2.2.1
      ⟨300000, "a.txt", "/tmp/convert-test/a.txt"⟩
    alistGet r2.2.1.store "a.txt" =
      some ⟨"/tmp/convert-test/a.txt", "text/plain", 301000⟩ ∧
    r2.2.1.timers = [⟨300000, "a.txt", "/tmp/convert-test/a.txt"⟩,
      ⟨301000, "a.txt", "/tmp/convert-test/a.txt"⟩] ∧
    alistGet fired.1.store "a.txt" = none ∧
    (getConvertFile fired.1 fired.2 300500 "original" "a.txt").1 = .notFound ∧
    300000 < 301000 ∧ 300500 ≤ 301000 := by
  decide

/-- C8: a local-sink upload at time `T` stores an entry with
`expiresAt = T + 5 minutes` under the destination's final segment, copying
the file content; retrieval serves the stored content type and path whenever
`now ≤ expiresAt`, returns 404 once `expiresAt < now` while lazily deleting
the expired entry on that read, and returns 404 for any absent key. -/
theorem c8_local_upload_ttl (st : LocalState) (disk : Disk) (now0 : Nat)
    (put : HttpPutResult) (url filePath ct content : String)
    (h1 : strStartsWith url "/convert/" = true)
    (h2 : alistGet disk filePath = some content) :
    handleFileUpload st disk now0 put url filePath ct =
      (.ok ⟨true, some true, none⟩,
       ⟨alistSet st.store (lastSegment url)
          ⟨"/tmp/convert-test/" ++ lastSegment url, ct, now0 + 5 * 60 * 1000⟩,
        st.timers ++ [⟨now0 + 5 * 60 * 1000, lastSegment url,
          "/tmp/convert-test/" ++ lastSegment url⟩]⟩,
       alistSet disk ("/tmp/convert-test/" ++ lastSegment url) content,
       [.storeWrite (lastSegment url)]) ∧
    (∀ now, now ≤ now0 + 5 * 60 * 1000 →
      getConvertFile
          ⟨alistSet st.store (lastSegment url)
             ⟨"/tmp/convert-test/" ++ lastSegment url, ct,
              now0 + 5 * 60 * 1000⟩,
           st.timers ++ [⟨now0 + 5 * 60 * 1000, lastSegment url,
             "/tmp/convert-test/" ++ lastSegment url⟩]⟩
          (alistSet disk ("/tmp/convert-test/" ++ lastSegment url) content)
          now "original" (lastSegment url) =
        (.served ct ("/tmp/convert-test/" ++ lastSegment url),
         ⟨alistSet st.store (lastSegment url)
            ⟨"/tmp/convert-test/" ++ lastSegment url, ct,
             now0 + 5 * 60 * 1000⟩,
          st.timers ++ [⟨now0 + 5 * 60 * 1000, lastSegment url,
            "/tmp/convert-test/" ++ lastSegment url⟩]⟩,
         alistSet disk ("/tmp/convert-test/" ++ lastSegment url) content)) ∧
    alistGet (alistSet disk ("/tmp/convert-test/" ++ lastSegment url) content)
      ("/tmp/convert-test/" ++ lastSegment url) = some content ∧
    (∀ now, now0 + 5 * 60 * 1000 < now →
      (getConvertFile
          ⟨alistSet st.store (lastSegment url)
             ⟨"/tmp/convert-test/" ++ lastSegment url, ct,
              now0 + 5 * 60 * 1000⟩,
           st.timers ++ [⟨now0 + 5 * 60 * 1000, lastSegment url,
             "/tmp/convert-test/" ++ lastSegment url⟩]⟩
          (alistSet disk ("/tmp/convert-test/" ++ lastSegment url) content)
          now "original" (lastSegment url)).1 = .notFound ∧
      alistGet (getConvertFile
          ⟨alistSet st.store (lastSegment url)
             ⟨"/tmp/convert-test/" ++ lastSegment url, ct,
              now0 + 5 * 60 * 1000⟩,
           st.timers ++ [⟨now0 + 5 * 60 * 1000, lastSegment url,
             "/tmp/convert-test/" ++ lastSegment url⟩]⟩
          (alistSet disk ("/tmp/convert-test/" ++ lastSegment url) content)
          now "original" (lastSegment url)).2.1.store (lastSegment url) =
        none) ∧
    (∀ (k : String) (now : Nat) (ty : String),
      (ty = "original" ∨ ty = "preview") →
      alistGet (alistSet st.store (lastSegment url)
        ⟨"/tmp/convert-test/" ++ lastSegment url, ct,
         now0 + 5 * 60 * 1000⟩) k = none →
      (getConvertFile
          ⟨alistSet st.store (lastSegment url)
             ⟨"/tmp/convert-test/" ++ lastSegment url, ct,
              now0 + 5 * 60 * 1000⟩,
           st.timers ++ [⟨now0 + 5 * 60 * 1000, lastSegment url,
             "/tmp/convert-test/" ++ lastSegment url⟩]⟩
          (alistSet disk ("/tmp/convert-test/" ++ lastSegment url) content)
          now ty k).1 = .notFound) := by
  refine ⟨?_, ?_, alistGet_set_self disk _ content, ?_, ?_⟩
  · unfold handleFileUpload
    simp [h1, h2]
  · intro now hnow
    unfold getConvertFile
    rw [if_neg (by simp), alistGet_set_self]
    simp [Nat.not_lt.mpr hnow]
  · intro now hnow
    unfold getConvertFile
    rw [if_neg (by simp), alistGet_set_self]
    simp only [if_pos hnow, alistGet_set_self]
    exact ⟨trivial, alistGet_remove_self _ _⟩
  · intro k now ty hty hk
    exact getConvertFile_absent _ _ now ty k hty hk

/-- C8, witness: an upload at T = 0 is served at 299000 with the stored content
type and is gone (404, entry evicted) at 301000. -/
theorem c8_local_upload_ttl_witness :
    alistGet (handleFileUpload ⟨[], []⟩ [("/tmp/uploads/f1", "v1")] 0
        (.response 200) "/convert/original/a.txt" "/tmp/uploads/f1"
        "text/plain").2.1.store "a.txt" =
      some ⟨"/tmp/convert-test/a.txt", "text/plain", 300000⟩ ∧
    (getConvertFile
        ⟨alistSet ([] : Store) (lastSegment "/convert/original/a.txt")
           ⟨"/tmp/convert-test/" ++ lastSegment "/convert/original/a.txt",
            "text/plain", 0 + 5 * 60 * 1000⟩,
         [] ++ [⟨0 + 5 * 60 * 1000, lastSegment "/convert/original/a.txt",
           "/tmp/convert-test/" ++ lastSegment "/convert/original/a.txt"⟩]⟩
        (alistSet [("/tmp/uploads/f1", "v1")]
          ("/tmp/convert-test/" ++ lastSegment "/convert/original/a.txt")
          "v1")
        299000 "original" (lastSegment "/convert/original/a.txt")).1 =
      .served "text/plain" "/tmp/convert-test/a.txt" ∧
    (getConvertFile
        ⟨alistSet ([] : Store) (lastSegment "/convert/original/a.txt")
           ⟨"/tmp/convert-test/" ++ lastSegment "/convert/original/a.txt",
            "text/plain", 0 + 5 * 60 * 1000⟩,
         [] ++ [⟨0 + 5 * 60 * 1000, lastSegment "/convert/original/a.txt",
           "/tmp/convert-test/" ++ lastSegment "/convert/original/a.txt"⟩]⟩
        (alistSet [("/tmp/uploads/f1", "v1")]
          ("/tmp/convert-test/" ++ lastSegment "/convert/original/a.txt")
          "v1")
        301000 "original" (lastSegment "/convert/original/a.txt")).1 =
      .notFound := by
  have h := c8_local_upload_ttl ⟨[], []⟩ [("/tmp/uploads/f1", "v1")] 0
    (.response 200) "/convert/original/a.txt" "/tmp/uploads/f1" "text/plain"
    "v1" (by decide) (by decide)
  refine ⟨?_, ?_, ?_⟩
  · rw [h.1]
    decide
  · rw [h.2.1 299000 (by decide)]
    decide
  · exact (h.2.2.2.1 301000 (by decide)).1

/-- C9: the remote sink performs exactly one PUT carrying the full file body
with the supplied content type and `Content-Length` equal to the body's exact
length; it succeeds precisely on a 2xx response status, any other status
yields an error carrying that status code, a transport error propagates, and
a failed remote original upload makes the whole request fail with a 500 whose
trace shows the single PUT and no retry. -/
theorem c9_remote_put_single_2xx (disk : Disk) (put : HttpPutResult)
    (url filePath ct content : String)
    (h : alistGet disk filePath = some content) :
    (uploadWithPresignedUrl disk put url filePath ct).2 =
      [.remotePut url ct content.length content] ∧
    (∀ code, put = .response code → 200 ≤ code ∧ code < 300 →
      (uploadWithPresignedUrl disk put url filePath ct).1 =
        .ok ⟨true, none, some code⟩) ∧
    (∀ code, put = .response code → ¬(200 ≤ code ∧ code < 300) →
      (uploadWithPresignedUrl disk put url filePath ct).1 =
        .error ("Upload failed with status " ++ toString code)) ∧
    (∀ msg, put = .netError msg →
      (uploadWithPresignedUrl disk put url filePath ct).1 = .error msg) ∧
    (∀ (env : RunEnv) (st : LocalState) (disk2 : Disk) (f : UploadedFile)
        (oUrl pUrl : String) (sr : ScanResult) (code : Nat)
        (content2 : String),
      oUrl ≠ "" → pUrl ≠ "" → getFileCategory f.originalname ≠ .blocked →
      scanFile env.scanExit = .ok sr → sr.clean = true →
      strStartsWith oUrl "/convert/" = false →
      alistGet disk2 f.path = some content2 →
      env.putOriginal = .response code → ¬(200 ≤ code ∧ code < 300) →
      postConvert env st disk2 (some f) (some oUrl) (some pUrl) =
        ⟨.errorResp ("Upload failed with status " ++ toString code) "clean",
         st, unlinkAll disk2 [f.path],
         [.scanInvoked f.path,
          .remotePut oUrl f.mimetype content2.length content2], [f.path]⟩ ∧
      httpStatus (.errorResp ("Upload failed with status " ++ toString code)
        "clean") = 500) := by
  refine ⟨?_, ?_, ?_, ?_, ?_⟩
  · unfold uploadWithPresignedUrl
    rw [h]
  · intro code hc h2xx
    subst hc
    unfold uploadWithPresignedUrl
    rw [h]
    simp [h2xx]
  · intro code hc h2xx
    subst hc
    unfold uploadWithPresignedUrl
    rw [h]
    simp [h2xx]
  · intro msg hc
    subst hc
    unfold uploadWithPresignedUrl
    rw [h]
  · intro env st disk2 f oUrl pUrl sr code content2 g1 g2 g3 g4 g5 g6 g7 g8
      g9
    refine ⟨?_, rfl⟩
    unfold postConvert handleFileUpload uploadWithPresignedUrl
    simp [g1, g2, g3, g4, g5, g6, g7, g8, g9, reportScanVar]

/-- C9, witness: a PUT answered 403 yields the carried-status error and a
run whose original goes to a remote URL with that response fails with 500
after exactly one PUT. -/
theorem c9_remote_put_single_2xx_witness :
    (uploadWithPresignedUrl [("/tmp/uploads/f1", "BODY")] (.response 403)
        "https://s3.example/presigned" "/tmp/uploads/f1"
        "text/plain").1 =
      .error ("Upload failed with status " ++ toString 403) ∧
    (uploadWithPresignedUrl [("/tmp/uploads/f1", "BODY")] (.response 403)
        "https://s3.example/presigned" "/tmp/uploads/f1" "text/plain").2 =
      [.remotePut "https://s3.example/presigned" "text/plain"
        ("BODY" : String).length "BODY"] ∧
    postConvert
        ⟨.exitOk "OK",
         ⟨.rendered "p", .rendered "q", "/tmp/libreoffice/a.pdf",
          "/tmp/libreoffice/b.pdf"⟩, .response 403, .response 200, 0, 0⟩
        ⟨[], []⟩ [("/tmp/uploads/f1", "BODY")]
        (some ⟨"/tmp/uploads/f1", "test.txt", "text/plain", 4⟩)
        (some "https://s3.example/presigned")
        (some "/convert/preview/b.pdf") =
      ⟨.errorResp ("Upload failed with status " ++ toString 403) "clean",
       ⟨[], []⟩, [],
       [.scanInvoked "/tmp/uploads/f1",
        .remotePut "https://s3.example/presigned" "text/plain"
          ("BODY" : String).length "BODY"], ["/tmp/uploads/f1"]⟩ := by
  have h := c9_remote_put_single_2xx [("/tmp/uploads/f1", "BODY")]
    (.response 403) "https://s3.example/presigned" "/tmp/uploads/f1"
    "text/plain" "BODY" (by decide)
  refine ⟨h.2.2.1 403 rfl (by decide), h.1, ?_⟩
  exact (h.2.2.2.2
    ⟨.exitOk "OK",
     ⟨.rendered "p", .rendered "q", "/tmp/libreoffice/a.pdf",
      "/tmp/libreoffice/b.pdf"⟩, .response 403, .response 200, 0, 0⟩
    ⟨[], []⟩ [("/tmp/uploads/f1", "BODY")]
    ⟨"/tmp/uploads/f1", "test.txt", "text/plain", 4⟩
    "https://s3.example/presigned" "/convert/preview/b.pdf"
    ⟨true, ("OK" : String).trim⟩ 403 "BODY"
    (by decide) (by decide) (by decide) rfl rfl (by decide) (by decide) rfl
    (by decide)).1

/-- C10: the retrieval endpoint's outcome is independent of the `type`
parameter — `original` and `preview` retrievals of the same key agree on any
state — and two local uploads whose destination paths share the same final
segment write the same store key, so the second overwrites the first; the
`original` and `preview` destinations `/convert/original/x.bin` and
`/convert/preview/x.bin` have that same final segment. -/
theorem c10_type_param_ignored_key_collision (st : LocalState) (disk : Disk)
    (now : Nat) (k : String) :
    getConvertFile st disk now "original" k =
      getConvertFile st disk now "preview" k ∧
    (∀ (st0 : LocalState) (d0 : Disk) (t1 t2 : Nat)
        (put1 put2 : HttpPutResult) (u1 u2 p1 p2 c1 c2 ca cb : String),
      strStartsWith u1 "/convert/" = true →
      strStartsWith u2 "/convert/" = true →
      lastSegment u1 = lastSegment u2 →
      alistGet d0 p1 = some ca →
      alistGet (handleFileUpload st0 d0 t1 put1 u1 p1 c1).2.2.1 p2 =
        some cb →
      alistGet (handleFileUpload (handleFileUpload st0 d0 t1 put1 u1 p1
          c1).2.1 (handleFileUpload st0 d0 t1 put1 u1 p1 c1).2.2.1 t2 put2
          u2 p2 c2).2.1.store (lastSegment u1) =
        some ⟨"/tmp/convert-test/" ++ lastSegment u2, c2,
          t2 + 5 * 60 * 1000⟩) ∧
    lastSegment "/convert/original/x.bin" = "x.bin" ∧
    lastSegment "/convert/preview/x.bin" = "x.bin" := by
  refine ⟨?_, ?_, by decide, by decide⟩
  · unfold getConvertFile
    simp
  · intro st0 d0 t1 t2 put1 put2 u1 u2 p1 p2 c1 c2 ca cb g1 g2 g3 g4 g5
    have e1 : handleFileUpload st0 d0 t1 put1 u1 p1 c1 =
        (.ok ⟨true, some true, none⟩,
         ⟨alistSet st0.store (lastSegment u1)
            ⟨"/tmp/convert-test/" ++ lastSegment u1, c1,
             t1 + 5 * 60 * 1000⟩,
          st0.timers ++ [⟨t1 + 5 * 60 * 1000, lastSegment u1,
            "/tmp/convert-test/" ++ lastSegment u1⟩]⟩,
         alistSet d0 ("/tmp/convert-test/" ++ lastSegment u1) ca,
         [.storeWrite (lastSegment u1)]) := by
      unfold handleFileUpload
      simp [g1, g4]
    rw [e1] at g5 ⊢
    unfold handleFileUpload
    simp only [g2, if_pos, g5]
    rw [g3, alistGet_set_self]

/-- C10, witness: after uploading an original and then a preview under the
same final segment `x.bin`, the single store entry is the preview's. -/
theorem c10_type_param_ignored_key_collision_witness :
    alistGet
        (handleFileUpload
          (handleFileUpload ⟨[], []⟩ [("/tmp/uploads/f1", "ORIG"),
            ("/tmp/uploads/f2", "PREV")] 0 (.response 200)
            "/convert/original/x.bin" "/tmp/uploads/f1" "text/plain").2.1
          (handleFileUpload ⟨[], []⟩ [("/tmp/uploads/f1", "ORIG"),
            ("/tmp/uploads/f2", "PREV")] 0 (.response 200)
            "/convert/original/x.bin" "/tmp/uploads/f1" "text/plain").2.2.1
          5 (.response 200) "/convert/preview/x.bin" "/tmp/uploads/f2"
          "application/pdf").2.1.store
        (lastSegment "/convert/original/x.bin") =
      some ⟨"/tmp/convert-test/" ++ lastSegment "/convert/preview/x.bin",
        "application/pdf", 5 + 5 * 60 * 1000⟩ :=
  (c10_type_param_ignored_key_collision ⟨[], []⟩ [] 0 "k").2.1
    ⟨[], []⟩ [("/tmp/uploads/f1", "ORIG"), ("/tmp/uploads/f2", "PREV")] 0 5
    (.response 200) (.response 200) "/convert/original/x.bin"
    "/convert/preview/x.bin" "/tmp/uploads/f1" "/tmp/uploads/f2"
    "text/plain" "application/pdf" "ORIG" "PREV"
    (by decide) (by decide) (by decide) (by decide) (by decide)

end DabihAttachments
